import Mathlib

/-!
Shallow embedding of `src/src/badguy/owl.cpp` (the SuperTux `Owl` badguy):
a flying enemy that patrols horizontally, optionally carries a portable
entity, and releases it under geometric conditions relative to the nearest
player and the level boundaries.

Coordinates are modelled as rationals (`ℚ`), with the source's screen
convention: the y axis grows downward, so `p1` is the top-left corner of a
rectangle and `p2` the bottom-right corner.

External collaborators (sector, sound, sprite, base-class `BadGuy`
behaviour) are modelled as inputs to the functions and as entries of an
event trace, so that the order of the side effects each handler performs
is captured faithfully.
-/

/-- Facing direction of the actor (`Direction::LEFT` / `Direction::RIGHT`). -/
inductive Direction where
  | left
  | right
deriving DecidableEq

/-- Axis-aligned rectangle (`Rectf`): `p1` is top-left, `p2` bottom-right,
with y growing downward. -/
structure Rectf where
  p1x : ℚ
  p1y : ℚ
  p2x : ℚ
  p2y : ℚ
deriving DecidableEq

/-- 2D vector (`Vector`). -/
structure Vec2 where
  x : ℚ
  y : ℚ
deriving DecidableEq

/-- The slice of the physics proxy (`m_physic`) the owl reads and writes:
velocity components, vertical acceleration and the gravity flag. -/
structure Physic where
  vx : ℚ
  vy : ℚ
  ay : ℚ
  gravity : Bool
deriving DecidableEq

/-- BadGuy state as far as the owl manipulates it (`set_state(STATE_FALLING)`). -/
inductive BState where
  | active
  | falling
deriving DecidableEq

/-- The owl's own state: direction, carried-object reference (modelled as a
flag, `true` iff `carried_object != nullptr`), frozen flag, physics proxy
slice, current sprite action and collider bounding box (`m_col.m_bbox`). -/
structure OwlState where
  m_dir : Direction
  carried_object : Bool
  m_frozen : Bool
  m_physic : Physic
  action : String
  m_bbox : Rectf
  bstate : BState
deriving DecidableEq

/-- Trace entries for the side effects the owl performs on its
collaborators, in the order the source performs them. -/
inductive Event where
  | grab (pos : Vec2) (dir : Direction)
  | ungrab (dir : Direction)
  | bounce
  | playSound (name : String)
  | setVelY (v : ℚ)
  | setAccelY (a : ℚ)
  | setVelX (v : ℚ)
  | enableGravity (b : Bool)
  | setState (st : BState)
  | runDeadScript
  | baseFreeze
  | baseUnfreeze
  | baseIgnite
  | baseCollisionSolid
  | baseActiveUpdate
  | setAction (name : String)
  | addObject
  | logFatal
  | logWarning
deriving DecidableEq

/-- `const float FLYING_SPEED = 120.0f;` -/
def FLYING_SPEED : ℚ := 120

/-- `const float ACTIVATION_DISTANCE = 128.0f;` -/
def ACTIVATION_DISTANCE : ℚ := 128

/-- Result of `GameObjectFactory::instance().create(...)`:
`none` models a null result (creation failed); `some portable` models a
created object together with whether the `dynamic_cast<Portable*>`
succeeds on it. -/
def FactoryResult : Type := Option Bool

/-- Collision result handed to `collision_solid` (`CollisionHit` flags). -/
structure CollisionHit where
  top : Bool
  bottom : Bool
  left : Bool
  right : Bool
deriving DecidableEq

/-- Modelled from the spec: `get_anchor_pos(bbox, ANCHOR_BOTTOM)`.  The
function itself lives outside `src/`; the spec describes the anchor as
"the Actor's bottom-center", i.e. the midpoint of the horizontal extent at
the bottom edge. -/
def get_anchor_pos_bottom (bbox : Rectf) : Vec2 :=
  { x := (bbox.p1x + bbox.p2x) / 2, y := bbox.p2y }

/-- `Owl::initialize` (named `initializeOwl` here): sets horizontal
velocity from the direction, disables gravity, selects the facing action;
then, outside the editor, asks the factory for the carried object.  On a
null result a fatal error is logged; if the created object is not portable
a warning is logged; only when the portable cast succeeds is the carried
reference set and the object added to the sector. -/
def initializeOwl (s : OwlState) (editor_active : Bool) (factory : FactoryResult) :
    OwlState × List Event :=
  let s1 : OwlState :=
    { s with
      m_physic :=
        { s.m_physic with
          vx := if s.m_dir = Direction.left then -FLYING_SPEED else FLYING_SPEED,
          gravity := false },
      action := if s.m_dir = Direction.left then "left" else "right" }
  let ev1 : List Event :=
    [Event.setVelX (if s.m_dir = Direction.left then -FLYING_SPEED else FLYING_SPEED),
     Event.enableGravity false,
     Event.setAction (if s.m_dir = Direction.left then "left" else "right")]
  if editor_active then
    (s1, ev1)
  else
    match factory with
    | none => (s1, ev1 ++ [Event.logFatal])
    | some portable =>
      if portable then
        ({ s1 with carried_object := true }, ev1 ++ [Event.addObject])
      else
        (s1, ev1 ++ [Event.logWarning])

/-- `Owl::is_above_player`: false when there is no nearest player;
otherwise the player's top edge must be at or below the owl's bottom edge
and the player's horizontal extent, shifted by `ACTIVATION_DISTANCE`
(toward the right when flying left, toward the left when flying right),
must strictly overlap the owl's horizontal extent. -/
def is_above_player (dir : Direction) (owl_bbox : Rectf) (player : Option Rectf) : Bool :=
  match player with
  | none => false
  | some player_bbox =>
    let x_offset : ℚ :=
      match dir with
      | Direction.left => ACTIVATION_DISTANCE
      | Direction.right => -ACTIVATION_DISTANCE
    decide ((player_bbox.p1y ≥ owl_bbox.p2y)
      ∧ (player_bbox.p2x + x_offset > owl_bbox.p1x)
      ∧ (player_bbox.p1x + x_offset < owl_bbox.p2x))

/-- `Owl::active_update`: delegates to the base update, returns early when
frozen; while carrying, either repositions the carried object via `grab` at
the biased bottom-center anchor, or releases it via `ungrab` when the
anchor is within 16 units of a level edge or when the player is below. -/
def active_update (s : OwlState) (player : Option Rectf) (sector_width : ℚ) :
    OwlState × List Event :=
  let base : List Event := [Event.baseActiveUpdate]
  if s.m_frozen then
    (s, base)
  else
    if s.carried_object then
      if !(is_above_player s.m_dir s.m_bbox player) then
        let anchor := get_anchor_pos_bottom s.m_bbox
        let obj_pos : Vec2 := { x := anchor.x - 16, y := anchor.y + 3 }
        if obj_pos.x ≤ 16 ∨ obj_pos.x + 16 ≥ sector_width then
          ({ s with carried_object := false }, base ++ [Event.ungrab s.m_dir])
        else
          (s, base ++ [Event.grab obj_pos s.m_dir])
      else
        ({ s with carried_object := false }, base ++ [Event.ungrab s.m_dir])
    else
      (s, base)

/-- `Owl::kill_fall`: plays the fall sound, zeroes vertical velocity and
acceleration, enables gravity, enters the falling state, then releases any
carried object, then runs the dead script. -/
def kill_fall (s : OwlState) : OwlState × List Event :=
  let s1 : OwlState :=
    { s with
      m_physic := { s.m_physic with vy := 0, ay := 0, gravity := true },
      bstate := BState.falling }
  let ev1 : List Event :=
    [Event.playSound "sounds/fall.wav", Event.setVelY 0, Event.setAccelY 0,
     Event.enableGravity true, Event.setState BState.falling]
  let rel : OwlState × List Event :=
    if s1.carried_object then
      ({ s1 with carried_object := false }, [Event.ungrab s1.m_dir])
    else
      (s1, [])
  (rel.1, ev1 ++ rel.2 ++ [Event.runDeadScript])

/-- `Owl::collision_squished`: bounces the nearest player if present, then
releases any carried object, then delegates to `kill_fall`; returns true. -/
def collision_squished (s : OwlState) (player_present : Bool) :
    (OwlState × List Event) × Bool :=
  let ev0 : List Event := if player_present then [Event.bounce] else []
  let rel : OwlState × List Event :=
    if s.carried_object then
      ({ s with carried_object := false }, [Event.ungrab s.m_dir])
    else
      (s, [])
  let kf := kill_fall rel.1
  ((kf.1, ev0 ++ rel.2 ++ kf.2), true)

/-- `Owl::freeze`: releases any carried object, enables gravity, then
delegates to the base freeze.  Modelled from the spec: the base
`BadGuy::freeze` (outside `src/`) performs the remaining freeze
bookkeeping; it is modelled as setting the frozen flag. -/
def freeze (s : OwlState) : OwlState × List Event :=
  let rel : OwlState × List Event :=
    if s.carried_object then
      ({ s with carried_object := false }, [Event.ungrab s.m_dir])
    else
      (s, [])
  let s2 : OwlState := { rel.1 with m_physic := { rel.1.m_physic with gravity := true } }
  ({ s2 with m_frozen := true }, rel.2 ++ [Event.enableGravity true, Event.baseFreeze])

/-- `Owl::unfreeze`: delegates to the base unfreeze, then restores flight:
horizontal velocity matching the current direction, gravity off, facing
action reselected.  Modelled from the spec: the base `BadGuy::unfreeze`
(outside `src/`) is modelled as clearing the frozen flag. -/
def unfreeze (s : OwlState) : OwlState × List Event :=
  let s1 : OwlState := { s with m_frozen := false }
  let vx : ℚ := if s1.m_dir = Direction.left then -FLYING_SPEED else FLYING_SPEED
  let s2 : OwlState :=
    { s1 with
      m_physic := { s1.m_physic with vx := vx, gravity := false },
      action := if s1.m_dir = Direction.left then "left" else "right" }
  (s2, [Event.baseUnfreeze, Event.setVelX vx, Event.enableGravity false,
        Event.setAction (if s1.m_dir = Direction.left then "left" else "right")])

/-- `Owl::is_freezable`: always true. -/
def is_freezable : Bool := true

/-- `Owl::collision_solid`: when frozen, delegates entirely to the base
collision handling (outside `src/`, modelled as an opaque delegation
event); otherwise a top/bottom hit zeroes vertical velocity, and failing
that a left/right hit reverses direction, reselects the facing action and
sets horizontal velocity to the flying speed with the new sign. -/
def collision_solid (s : OwlState) (hit : CollisionHit) : OwlState × List Event :=
  if s.m_frozen then
    (s, [Event.baseCollisionSolid])
  else
    if hit.top || hit.bottom then
      ({ s with m_physic := { s.m_physic with vy := 0 } }, [Event.setVelY 0])
    else
      if hit.left || hit.right then
        match s.m_dir with
        | Direction.left =>
          ({ s with
             m_dir := Direction.right,
             action := "right",
             m_physic := { s.m_physic with vx := FLYING_SPEED } },
           [Event.setAction "right", Event.setVelX FLYING_SPEED])
        | Direction.right =>
          ({ s with
             m_dir := Direction.left,
             action := "left",
             m_physic := { s.m_physic with vx := -FLYING_SPEED } },
           [Event.setAction "left", Event.setVelX (-FLYING_SPEED)])
      else
        (s, [])

/-- `Owl::ignite`: releases any carried object, then delegates to the base
ignite. -/
def ignite (s : OwlState) : OwlState × List Event :=
  let rel : OwlState × List Event :=
    if s.carried_object then
      ({ s with carried_object := false }, [Event.ungrab s.m_dir])
    else
      (s, [])
  (rel.1, rel.2 ++ [Event.baseIgnite])

/-- The externally invokable operations of an activated owl instance (all
entry points of `owl.cpp` except the one-time `initializeOwl`), with the
environment inputs each needs. -/
inductive OwlOp where
  | update (player : Option Rectf) (sector_width : ℚ)
  | squish (player_present : Bool)
  | killFall
  | doFreeze
  | doUnfreeze
  | doIgnite
  | solid (hit : CollisionHit)

/-- Apply one operation to the state, returning the new state and trace. -/
def applyOp (s : OwlState) (op : OwlOp) : OwlState × List Event :=
  match op with
  | OwlOp.update player w => active_update s player w
  | OwlOp.squish p => (collision_squished s p).1
  | OwlOp.killFall => kill_fall s
  | OwlOp.doFreeze => freeze s
  | OwlOp.doUnfreeze => unfreeze s
  | OwlOp.doIgnite => ignite s
  | OwlOp.solid hit => collision_solid s hit

/-- Run a sequence of operations, keeping only the final state. -/
def runOps (s : OwlState) (ops : List OwlOp) : OwlState :=
  ops.foldl (fun st op => (applyOp st op).1) s


/-! ## Spec-side predicates and sample states -/

/-- The activation shift as the spec words it: the owl's horizontal extent
is displaced by the activation distance in the direction of travel. -/
def travel_shift : Direction → ℚ
  | Direction.left => -ACTIVATION_DISTANCE
  | Direction.right => ACTIVATION_DISTANCE

/-- The release-on-player predicate as the spec words it: a nearest player
exists, the player's top edge is at or below the owl's bottom edge (y grows
downward), and the player's horizontal extent overlaps the owl's horizontal
extent shifted by the activation distance in the direction of travel. -/
def spec_player_below (dir : Direction) (owl_bbox : Rectf) (player : Option Rectf) : Prop :=
  ∃ pb, player = some pb
    ∧ pb.p1y ≥ owl_bbox.p2y
    ∧ pb.p2x > owl_bbox.p1x + travel_shift dir
    ∧ pb.p1x < owl_bbox.p2x + travel_shift dir

/-- The code's boolean test agrees with the spec's wording of the
release-on-player predicate. -/
theorem is_above_player_iff (dir : Direction) (owl_bbox : Rectf) (player : Option Rectf) :
    is_above_player dir owl_bbox player = true ↔ spec_player_below dir owl_bbox player := by
  cases player with
  | none => simp [is_above_player, spec_player_below]
  | some pb =>
    simp only [is_above_player, spec_player_below, decide_eq_true_eq, Option.some.injEq,
      exists_eq_left']
    cases dir <;>
      simp only [travel_shift, ACTIVATION_DISTANCE] <;>
      constructor <;>
      rintro ⟨h1, h2, h3⟩ <;>
      exact ⟨h1, by linarith, by linarith⟩

/-- A sample owl bounding box. -/
def owlBox : Rectf := { p1x := 300, p1y := 100, p2x := 364, p2y := 164 }

/-- A sample unfrozen owl flying right and carrying an object. -/
def sampleCarry : OwlState :=
  { m_dir := Direction.right, carried_object := true, m_frozen := false,
    m_physic := { vx := 120, vy := 0, ay := 0, gravity := false },
    action := "right", m_bbox := owlBox, bstate := BState.active }

/-- A player bounding box positioned below-right of `owlBox`, inside the
activation zone of a right-flying owl. -/
def playerBoxBelow : Rectf := { p1x := 440, p1y := 200, p2x := 480, p2y := 260 }

/-- An owl near the left level edge while carrying (anchor x is 32, so the
biased anchor x is 16 and the edge condition triggers). -/
def sampleEdgeCarry : OwlState :=
  { m_dir := Direction.left, carried_object := true, m_frozen := false,
    m_physic := { vx := -120, vy := 0, ay := 0, gravity := false },
    action := "left", m_bbox := { p1x := 0, p1y := 100, p2x := 64, p2y := 164 },
    bstate := BState.active }

/-! ## Claims -/

/-- Claim C3: while not frozen and carrying, the release-on-player
predicate holds exactly when a nearest player exists, the player's top edge
is at or below the owl's bottom edge, and the horizontal extents overlap
after the 128-unit activation offset in the direction of travel; when it
holds, `ungrab` is invoked and the carried reference is cleared. -/
theorem C3_release_on_player (s : OwlState) (player : Option Rectf) (w : ℚ)
    (hf : s.m_frozen = false) (hc : s.carried_object = true) :
    (is_above_player s.m_dir s.m_bbox player = true ↔ spec_player_below s.m_dir s.m_bbox player)
    ∧ (is_above_player s.m_dir s.m_bbox player = true →
        (active_update s player w).1.carried_object = false
        ∧ Event.ungrab s.m_dir ∈ (active_update s player w).2) := by
  refine ⟨is_above_player_iff s.m_dir s.m_bbox player, fun hab => ?_⟩
  simp [active_update, hf, hc, hab]

/-- Witness for C3 at a concrete state: a right-flying carrying owl with a
player below in the activation zone releases the carried object. -/
theorem C3_release_on_player_witness :
    (active_update sampleCarry (some playerBoxBelow) 10000).1.carried_object = false
    ∧ Event.ungrab sampleCarry.m_dir ∈ (active_update sampleCarry (some playerBoxBelow) 10000).2 :=
  (C3_release_on_player sampleCarry (some playerBoxBelow) 10000 rfl rfl).2
    (by norm_num [is_above_player, sampleCarry, playerBoxBelow, owlBox, ACTIVATION_DISTANCE])

/-- Claim C4: while carrying, unfrozen and the player not below, the owl
computes the bottom-center anchor biased by (−16, +3); if the biased anchor
x is at most 16, or that x plus 16 reaches the level width, it calls
`ungrab` and clears the reference instead of `grab`; otherwise it calls
`grab` with the computed anchor. -/
theorem C4_edge_release (s : OwlState) (player : Option Rectf) (w : ℚ)
    (hf : s.m_frozen = false) (hc : s.carried_object = true)
    (hp : is_above_player s.m_dir s.m_bbox player = false) :
    (((s.m_bbox.p1x + s.m_bbox.p2x) / 2 - 16 ≤ 16
        ∨ (s.m_bbox.p1x + s.m_bbox.p2x) / 2 - 16 + 16 ≥ w →
       (active_update s player w).1.carried_object = false
       ∧ Event.ungrab s.m_dir ∈ (active_update s player w).2
       ∧ ∀ p d, Event.grab p d ∉ (active_update s player w).2)
     ∧ (¬((s.m_bbox.p1x + s.m_bbox.p2x) / 2 - 16 ≤ 16
          ∨ (s.m_bbox.p1x + s.m_bbox.p2x) / 2 - 16 + 16 ≥ w) →
       (active_update s player w).1.carried_object = true
       ∧ Event.grab { x := (s.m_bbox.p1x + s.m_bbox.p2x) / 2 - 16, y := s.m_bbox.p2y + 3 } s.m_dir
           ∈ (active_update s player w).2
       ∧ ∀ d, Event.ungrab d ∉ (active_update s player w).2)) := by
  constructor
  · intro hedge
    simp only [active_update, hf, hc, hp, get_anchor_pos_bottom, Bool.false_eq_true, if_false,
      if_true, Bool.not_false]
    rw [if_pos hedge]
    simp
  · intro hedge
    simp only [active_update, hf, hc, hp, get_anchor_pos_bottom, Bool.false_eq_true, if_false,
      if_true, Bool.not_false]
    rw [if_neg hedge]
    simp [hc]

/-- Witness for C4 at concrete states: near the left level edge the owl
releases instead of grabbing; away from the edges it grabs at the biased
anchor. -/
theorem C4_edge_release_witness :
    ((active_update sampleEdgeCarry none 10000).1.carried_object = false
      ∧ Event.ungrab sampleEdgeCarry.m_dir ∈ (active_update sampleEdgeCarry none 10000).2)
    ∧ ((active_update sampleCarry none 10000).1.carried_object = true
      ∧ Event.grab { x := 316, y := 167 } sampleCarry.m_dir
          ∈ (active_update sampleCarry none 10000).2) := by
  constructor
  · have h := (C4_edge_release sampleEdgeCarry none 10000 rfl rfl rfl).1
      (by norm_num [sampleEdgeCarry])
    exact ⟨h.1, h.2.1⟩
  · have h := (C4_edge_release sampleCarry none 10000 rfl rfl rfl).2
      (by norm_num [sampleCarry, owlBox])
    refine ⟨h.1, ?_⟩
    have h2 := h.2.1
    norm_num [sampleCarry, owlBox] at h2 ⊢
    exact h2

/-- Claim C9 (implicit): with no player present the release-on-player
predicate is false, so on such a tick a carried object is never released by
the drop-on-player rule: it is grabbed at the computed anchor unless the
edge-of-level condition independently triggers the release. -/
theorem C9_no_player_no_drop (s : OwlState) (w : ℚ)
    (hf : s.m_frozen = false) (hc : s.carried_object = true) :
    is_above_player s.m_dir s.m_bbox none = false
    ∧ (¬((s.m_bbox.p1x + s.m_bbox.p2x) / 2 - 16 ≤ 16
         ∨ (s.m_bbox.p1x + s.m_bbox.p2x) / 2 - 16 + 16 ≥ w) →
        (active_update s none w).1.carried_object = true
        ∧ Event.grab { x := (s.m_bbox.p1x + s.m_bbox.p2x) / 2 - 16, y := s.m_bbox.p2y + 3 } s.m_dir
            ∈ (active_update s none w).2
        ∧ ∀ d, Event.ungrab d ∉ (active_update s none w).2)
    ∧ (((s.m_bbox.p1x + s.m_bbox.p2x) / 2 - 16 ≤ 16
         ∨ (s.m_bbox.p1x + s.m_bbox.p2x) / 2 - 16 + 16 ≥ w) →
        (active_update s none w).1.carried_object = false
        ∧ Event.ungrab s.m_dir ∈ (active_update s none w).2) := by
  refine ⟨rfl, fun hedge => ?_, fun hedge => ?_⟩
  · simp only [active_update, hf, hc, get_anchor_pos_bottom, is_above_player,
      Bool.false_eq_true, if_false, if_true, Bool.not_false]
    rw [if_neg hedge]
    simp [hc]
  · simp only [active_update, hf, hc, get_anchor_pos_bottom, is_above_player,
      Bool.false_eq_true, if_false, if_true, Bool.not_false]
    rw [if_pos hedge]
    simp

/-- Witness for C9 at a concrete state: with no player present, a carrying
owl away from the level edges keeps the object grabbed at the anchor. -/
theorem C9_no_player_no_drop_witness :
    is_above_player sampleCarry.m_dir sampleCarry.m_bbox none = false
    ∧ (active_update sampleCarry none 10000).1.carried_object = true
    ∧ ∀ d, Event.ungrab d ∉ (active_update sampleCarry none 10000).2 := by
  have h := C9_no_player_no_drop sampleCarry 10000 rfl rfl
  have h2 := h.2.1 (by norm_num [sampleCarry, owlBox])
  exact ⟨h.1, h2.1, h2.2.2⟩

/-- The opposite facing direction. -/
def flip_dir : Direction → Direction
  | Direction.left => Direction.right
  | Direction.right => Direction.left

/-- A collision hit that is simultaneously on the top and on the right. -/
def hitTopRight : CollisionHit := { top := true, bottom := false, left := false, right := true }

/-- A collision hit purely on the right side. -/
def hitRightOnly : CollisionHit := { top := false, bottom := false, left := false, right := true }

/-- An unfrozen owl facing right, used for the collision counterexample. -/
def cexOwl : OwlState :=
  { m_dir := Direction.right, carried_object := false, m_frozen := false,
    m_physic := { vx := 120, vy := -5, ay := 0, gravity := false },
    action := "right", m_bbox := owlBox, bstate := BState.active }

/-- Counterexample to claim C6 as stated: a solid collision whose hit
reports both top and right, on an unfrozen owl facing right, does not
reverse the direction and does not set horizontal velocity to −120 — the
vertical response takes priority, so a lateral (right) hit with a
simultaneous vertical component contradicts the claimed reversal. -/
theorem C6_counterexample :
    hitTopRight.right = true ∧ cexOwl.m_frozen = false ∧ cexOwl.m_dir = Direction.right
    ∧ (collision_solid cexOwl hitTopRight).1.m_dir ≠ Direction.left
    ∧ (collision_solid cexOwl hitTopRight).1.m_physic.vx ≠ -FLYING_SPEED := by
  refine ⟨rfl, rfl, rfl, ?_, ?_⟩
  · intro h
    simp [collision_solid, cexOwl, hitTopRight] at h
  · norm_num [collision_solid, cexOwl, hitTopRight, FLYING_SPEED]

/-- Claim C6 (amended): for every lateral solid collision (left or right
hit) with no simultaneous vertical (top or bottom) component, while the
owl is not frozen: the direction is reversed, the facing action matching
the new direction is selected, and horizontal velocity is set to the flying
speed 120 with the new direction's sign. -/
theorem C6_lateral_reversal (s : OwlState) (hit : CollisionHit)
    (hf : s.m_frozen = false)
    (hv : (hit.top || hit.bottom) = false)
    (hl : (hit.left || hit.right) = true) :
    (collision_solid s hit).1.m_dir = flip_dir s.m_dir
    ∧ (collision_solid s hit).1.action =
        (if flip_dir s.m_dir = Direction.left then "left" else "right")
    ∧ (collision_solid s hit).1.m_physic.vx =
        (if flip_dir s.m_dir = Direction.left then -FLYING_SPEED else FLYING_SPEED) := by
  cases hd : s.m_dir <;>
    simp [collision_solid, hf, hv, hl, hd, flip_dir]

/-- Witness for C6: the spec's scenario — an owl facing right at flying
speed collides purely on its right side; direction becomes left and
horizontal velocity becomes −120. -/
theorem C6_lateral_reversal_witness :
    (collision_solid cexOwl hitRightOnly).1.m_dir = Direction.left
    ∧ (collision_solid cexOwl hitRightOnly).1.action = "left"
    ∧ (collision_solid cexOwl hitRightOnly).1.m_physic.vx = -120 := by
  have h := C6_lateral_reversal cexOwl hitRightOnly rfl rfl rfl
  simpa [cexOwl, flip_dir, FLYING_SPEED] using h

/-- Claim C7: for a vertical solid collision (top or bottom hit) while not
frozen, vertical velocity becomes zero and direction, horizontal velocity
and the carried-object reference are unchanged.  (When frozen, the handler
delegates entirely to the external base-class collision handling, which the
claim's spec sentences exclude.) -/
theorem C7_vertical_zeroes_vy (s : OwlState) (hit : CollisionHit)
    (hf : s.m_frozen = false) (hv : (hit.top || hit.bottom) = true) :
    (collision_solid s hit).1.m_physic.vy = 0
    ∧ (collision_solid s hit).1.m_dir = s.m_dir
    ∧ (collision_solid s hit).1.m_physic.vx = s.m_physic.vx
    ∧ (collision_solid s hit).1.carried_object = s.carried_object := by
  simp [collision_solid, hf, hv]

/-- Witness for C7 at a concrete state: a bottom hit on an unfrozen owl
zeroes vertical velocity and leaves direction, horizontal velocity and the
carried reference untouched. -/
theorem C7_vertical_zeroes_vy_witness :
    (collision_solid sampleCarry { top := false, bottom := true, left := false, right := false }).1.m_physic.vy = 0
    ∧ (collision_solid sampleCarry { top := false, bottom := true, left := false, right := false }).1.m_dir
        = sampleCarry.m_dir
    ∧ (collision_solid sampleCarry { top := false, bottom := true, left := false, right := false }).1.carried_object
        = sampleCarry.carried_object :=
  have h := C7_vertical_zeroes_vy sampleCarry
    { top := false, bottom := true, left := false, right := false } rfl rfl
  ⟨h.1, h.2.1, h.2.2.2⟩

/-- Claim C10 (implicit): a solid collision reporting both a vertical and a
lateral hit, while not frozen, gets only the vertical response: vertical
velocity is zeroed and direction, facing action and horizontal velocity are
all unchanged — no reversal occurs. -/
theorem C10_combined_hit_vertical_only (s : OwlState) (hit : CollisionHit)
    (hf : s.m_frozen = false) (hv : (hit.top || hit.bottom) = true)
    (hl : (hit.left || hit.right) = true) :
    (collision_solid s hit).1.m_physic.vy = 0
    ∧ (collision_solid s hit).1.m_dir = s.m_dir
    ∧ (collision_solid s hit).1.action = s.action
    ∧ (collision_solid s hit).1.m_physic.vx = s.m_physic.vx := by
  simp [collision_solid, hf, hv]

/-- Witness for C10 at a concrete state: a combined top-and-right hit on an
unfrozen right-facing owl keeps direction, action and horizontal velocity
and zeroes vertical velocity. -/
theorem C10_combined_hit_vertical_only_witness :
    (collision_solid cexOwl hitTopRight).1.m_physic.vy = 0
    ∧ (collision_solid cexOwl hitTopRight).1.m_dir = cexOwl.m_dir
    ∧ (collision_solid cexOwl hitTopRight).1.m_physic.vx = cexOwl.m_physic.vx :=
  have h := C10_combined_hit_vertical_only cexOwl hitTopRight rfl rfl rfl
  ⟨h.1, h.2.1, h.2.2.2⟩

/-- No externally invokable operation of an activated owl ever sets the
carried reference: if it is empty before an operation, it is empty after. -/
theorem applyOp_keeps_empty (s : OwlState) (op : OwlOp)
    (hc : s.carried_object = false) : (applyOp s op).1.carried_object = false := by
  cases op with
  | update player w =>
    cases hfz : s.m_frozen <;> simp [applyOp, active_update, hfz, hc]
  | squish p => simp [applyOp, collision_squished, kill_fall, hc]
  | killFall => simp [applyOp, kill_fall, hc]
  | doFreeze => simp [applyOp, freeze, hc]
  | doUnfreeze => simp [applyOp, unfreeze, hc]
  | doIgnite => simp [applyOp, ignite, hc]
  | solid hit =>
    cases hfz : s.m_frozen <;> cases hd : s.m_dir <;>
      simp [applyOp, collision_solid, hfz, hd, hc] <;>
      split_ifs <;> simp [hc]

/-- Claim C5: once the carried-object reference has been cleared, it stays
empty across every further sequence of operations of that owl instance —
no operation other than the one-time activation sets the reference, so a
released entity is never re-grabbed. -/
theorem C5_no_regrab (s : OwlState) (ops : List OwlOp)
    (hc : s.carried_object = false) :
    (runOps s ops).carried_object = false := by
  induction ops generalizing s with
  | nil => simpa [runOps] using hc
  | cons op rest ih =>
    have h1 := applyOp_keeps_empty s op hc
    simpa [runOps] using ih _ h1

/-- Witness for C5: a concrete owl with an empty reference keeps it empty
through a run of every kind of operation. -/
theorem C5_no_regrab_witness :
    (runOps cexOwl
      [OwlOp.doFreeze, OwlOp.doUnfreeze, OwlOp.update none 1000,
       OwlOp.solid hitRightOnly, OwlOp.doIgnite, OwlOp.squish true,
       OwlOp.killFall]).carried_object = false :=
  C5_no_regrab cexOwl
    [OwlOp.doFreeze, OwlOp.doUnfreeze, OwlOp.update none 1000,
     OwlOp.solid hitRightOnly, OwlOp.doIgnite, OwlOp.squish true,
     OwlOp.killFall] rfl

/-- While not frozen, the sign of horizontal velocity matches the
direction: negative for left, positive for right. -/
def sign_matches (s : OwlState) : Prop :=
  s.m_frozen = false →
    ((s.m_dir = Direction.left → s.m_physic.vx < 0)
     ∧ (s.m_dir = Direction.right → s.m_physic.vx > 0))

/-- The sign invariant transfers along equal flight fields. -/
theorem sign_matches_of_fields (s t : OwlState)
    (hd : t.m_dir = s.m_dir) (hf : t.m_frozen = s.m_frozen)
    (hv : t.m_physic.vx = s.m_physic.vx) (hs : sign_matches s) : sign_matches t := by
  intro hfz
  rw [hf] at hfz
  rw [hd, hv]
  exact hs hfz

/-- `active_update` changes neither direction, frozen flag nor velocity. -/
theorem active_update_keeps_flight (s : OwlState) (player : Option Rectf) (w : ℚ) :
    (active_update s player w).1.m_dir = s.m_dir
    ∧ (active_update s player w).1.m_frozen = s.m_frozen
    ∧ (active_update s player w).1.m_physic.vx = s.m_physic.vx := by
  simp only [active_update]
  split_ifs <;> exact ⟨rfl, rfl, rfl⟩

/-- `kill_fall` keeps direction, frozen flag and horizontal velocity. -/
theorem kill_fall_keeps_flight (s : OwlState) :
    (kill_fall s).1.m_dir = s.m_dir
    ∧ (kill_fall s).1.m_frozen = s.m_frozen
    ∧ (kill_fall s).1.m_physic.vx = s.m_physic.vx := by
  simp only [kill_fall]
  split_ifs <;> exact ⟨rfl, rfl, rfl⟩

/-- `collision_squished` keeps direction, frozen flag and horizontal
velocity. -/
theorem collision_squished_keeps_flight (s : OwlState) (p : Bool) :
    (collision_squished s p).1.1.m_dir = s.m_dir
    ∧ (collision_squished s p).1.1.m_frozen = s.m_frozen
    ∧ (collision_squished s p).1.1.m_physic.vx = s.m_physic.vx := by
  simp only [collision_squished, kill_fall]
  split_ifs <;> exact ⟨rfl, rfl, rfl⟩

/-- `ignite` keeps direction, frozen flag and horizontal velocity. -/
theorem ignite_keeps_flight (s : OwlState) :
    (ignite s).1.m_dir = s.m_dir
    ∧ (ignite s).1.m_frozen = s.m_frozen
    ∧ (ignite s).1.m_physic.vx = s.m_physic.vx := by
  simp only [ignite]
  split_ifs <;> exact ⟨rfl, rfl, rfl⟩

/-- `unfreeze` establishes the sign invariant. -/
theorem sign_matches_unfreeze (s : OwlState) : sign_matches (unfreeze s).1 := by
  intro _
  cases hd : s.m_dir <;>
    simp [unfreeze, hd, FLYING_SPEED] <;> norm_num

/-- Claim C8: whenever the owl is not frozen the sign of its horizontal
velocity matches its direction.  The operations that set direction or
velocity while unfrozen — activation, unfreeze, and the solid-collision
reversal — establish the correspondence, and every externally invokable
operation preserves it. -/
theorem C8_sign_invariant :
    (∀ s e f, sign_matches (initializeOwl s e f).1)
    ∧ (∀ s, sign_matches (unfreeze s).1)
    ∧ (∀ s op, sign_matches s → sign_matches (applyOp s op).1) := by
  refine ⟨?_, sign_matches_unfreeze, ?_⟩
  · intro s e f _
    rcases f with _ | b
    all_goals cases e
    all_goals try cases b
    all_goals cases hd : s.m_dir
    all_goals simp [initializeOwl, hd, FLYING_SPEED]
    all_goals norm_num
  · intro s op hs
    cases op with
    | update player w =>
      have h := active_update_keeps_flight s player w
      exact sign_matches_of_fields s _ h.1 h.2.1 h.2.2 hs
    | squish p =>
      have h := collision_squished_keeps_flight s p
      exact sign_matches_of_fields s _ h.1 h.2.1 h.2.2 hs
    | killFall =>
      have h := kill_fall_keeps_flight s
      exact sign_matches_of_fields s _ h.1 h.2.1 h.2.2 hs
    | doFreeze =>
      intro hfz
      exact Bool.noConfusion hfz
    | doUnfreeze => exact sign_matches_unfreeze s
    | doIgnite =>
      have h := ignite_keeps_flight s
      exact sign_matches_of_fields s _ h.1 h.2.1 h.2.2 hs
    | solid hit =>
      show sign_matches (collision_solid s hit).1
      cases hfz : s.m_frozen with
      | true =>
        have hcs : (collision_solid s hit).1 = s := by simp [collision_solid, hfz]
        rw [hcs]; exact hs
      | false =>
        by_cases hv : (hit.top || hit.bottom) = true
        · have hcs : (collision_solid s hit).1
              = { s with m_physic := { s.m_physic with vy := 0 } } := by
            simp [collision_solid, hfz, hv]
          rw [hcs]
          exact sign_matches_of_fields s _ rfl rfl rfl hs
        · by_cases hl : (hit.left || hit.right) = true
          · intro _
            cases hd : s.m_dir <;>
              simp [collision_solid, hfz, hv, hl, hd, FLYING_SPEED] <;> norm_num
          · have hcs : (collision_solid s hit).1 = s := by
              simp [collision_solid, hfz, hv, hl]
            rw [hcs]; exact hs

/-- Witness for C8: at concrete inputs, activation establishes the sign
correspondence and a lateral collision on an unfrozen owl preserves it. -/
theorem C8_sign_invariant_witness :
    sign_matches (initializeOwl cexOwl false (some true)).1
    ∧ sign_matches (applyOp sampleCarry (OwlOp.solid hitRightOnly)).1 := by
  constructor
  · exact C8_sign_invariant.1 cexOwl false (some true)
  · refine C8_sign_invariant.2.2 sampleCarry (OwlOp.solid hitRightOnly) ?_
    intro _
    constructor
    · intro h
      simp [sampleCarry] at h
    · intro _
      norm_num [sampleCarry]

/-- An owl state as at construction time: the carried reference is empty
(`carried_object(nullptr)` in the constructor). -/
def freshOwl : OwlState :=
  { m_dir := Direction.left, carried_object := false, m_frozen := false,
    m_physic := { vx := 0, vy := 0, ay := 0, gravity := true },
    action := "left", m_bbox := owlBox, bstate := BState.active }

/-- Counterexample to claim C1 as stated: outside the editor, when the
factory creates an entity that is not portable, a warning is logged and the
carried reference stays empty — but the created entity is NOT registered
into the world's live-object set: `add_object` is only reached in the
portable branch, so no registration event occurs. -/
theorem C1_counterexample :
    Event.logWarning ∈ (initializeOwl freshOwl false (some false)).2
    ∧ (initializeOwl freshOwl false (some false)).1.carried_object = false
    ∧ Event.addObject ∉ (initializeOwl freshOwl false (some false)).2 := by
  refine ⟨?_, rfl, ?_⟩ <;> simp [initializeOwl, freshOwl]

/-- Claim C1 (amended): on activation outside editor mode, if the
configured carried-entity type is instantiated successfully but the
produced entity does not satisfy the portable capability, a warning is
reported and the carried reference stays empty, and the instantiated
entity is not registered into the world's live-object set (registration
only happens when the portable capability check succeeds). -/
theorem C1_nonportable_not_registered (s : OwlState) (hc : s.carried_object = false) :
    Event.logWarning ∈ (initializeOwl s false (some false)).2
    ∧ (initializeOwl s false (some false)).1.carried_object = false
    ∧ Event.addObject ∉ (initializeOwl s false (some false)).2
    ∧ Event.addObject ∈ (initializeOwl s false (some true)).2 := by
  refine ⟨?_, ?_, ?_, ?_⟩ <;> simp [initializeOwl, hc]

/-- Witness for C1 (amended) at the construction-time state. -/
theorem C1_nonportable_not_registered_witness :
    Event.logWarning ∈ (initializeOwl freshOwl false (some false)).2
    ∧ Event.addObject ∉ (initializeOwl freshOwl false (some false)).2
    ∧ Event.addObject ∈ (initializeOwl freshOwl false (some true)).2 :=
  have h := C1_nonportable_not_registered freshOwl rfl
  ⟨h.1, h.2.2.1, h.2.2.2⟩

/-- Counterexample to claim C2 as stated: `kill_fall` invoked while
carrying performs its velocity, acceleration, gravity and state changes
(trace positions 1–4) before the `ungrab` (trace position 5), so the
handler does not release the carried object before the other parts of its
transition; the full trace is computed below. -/
theorem C2_counterexample :
    sampleCarry.carried_object = true
    ∧ (kill_fall sampleCarry).2 =
        [Event.playSound "sounds/fall.wav", Event.setVelY 0, Event.setAccelY 0,
         Event.enableGravity true, Event.setState BState.falling,
         Event.ungrab Direction.right, Event.runDeadScript]
    ∧ (kill_fall sampleCarry).2.get? 1 = some (Event.setVelY 0)
    ∧ (kill_fall sampleCarry).2.get? 5 = some (Event.ungrab Direction.right)
    ∧ ∀ i, i < 5 → (kill_fall sampleCarry).2.get? i ≠ some (Event.ungrab Direction.right) := by
  refine ⟨rfl, rfl, rfl, rfl, ?_⟩
  intro i hi
  interval_cases i <;> simp [kill_fall, sampleCarry]

/-- Claim C2 (amended): every externally invoked state-change handler
releases any carried object (invokes `ungrab` and clears the reference)
before returning; freeze and ignite release before any other transition
step, squish performs the bounce reaction first and then releases before
delegating the death transition, and kill/death performs its
velocity/acceleration/gravity/state changes first and releases before the
death-trigger hook.  The full traces and final states are pinned down. -/
theorem C2_release_in_every_handler (s : OwlState) (p : Bool)
    (hc : s.carried_object = true) :
    ((freeze s).1.carried_object = false
      ∧ (freeze s).2 = [Event.ungrab s.m_dir, Event.enableGravity true, Event.baseFreeze])
    ∧ ((ignite s).1.carried_object = false
      ∧ (ignite s).2 = [Event.ungrab s.m_dir, Event.baseIgnite])
    ∧ ((kill_fall s).1.carried_object = false
      ∧ (kill_fall s).2 =
          [Event.playSound "sounds/fall.wav", Event.setVelY 0, Event.setAccelY 0,
           Event.enableGravity true, Event.setState BState.falling,
           Event.ungrab s.m_dir, Event.runDeadScript])
    ∧ ((collision_squished s p).1.1.carried_object = false
      ∧ (collision_squished s p).1.2 =
          (if p then [Event.bounce] else [])
          ++ [Event.ungrab s.m_dir, Event.playSound "sounds/fall.wav", Event.setVelY 0,
              Event.setAccelY 0, Event.enableGravity true, Event.setState BState.falling,
              Event.runDeadScript]) := by
  cases p <;>
    refine ⟨⟨?_, ?_⟩, ⟨?_, ?_⟩, ⟨?_, ?_⟩, ⟨?_, ?_⟩⟩ <;>
    simp [freeze, ignite, kill_fall, collision_squished, hc]

/-- Witness for C2 (amended) at a concrete carrying owl. -/
theorem C2_release_in_every_handler_witness :
    (freeze sampleCarry).1.carried_object = false
    ∧ (ignite sampleCarry).1.carried_object = false
    ∧ (kill_fall sampleCarry).1.carried_object = false
    ∧ (collision_squished sampleCarry true).1.1.carried_object = false :=
  have h := C2_release_in_every_handler sampleCarry true rfl
  ⟨h.1.1, h.2.1.1, h.2.2.1.1, h.2.2.2.1⟩
